import Mathlib

/-!
Shallow embedding of the tourpay-backend operator payout subsystem.

Modelled source files:
* `src/services/operatorPaymentService.js` (fee estimation, eligibility
  validation, provider dispatch `processPayout`);
* the `OperatorPaymentMethod` model (`setPrimary`, `validateRoutingNumber`);
* the `OperatorPayout` ledger model (`create`, `updateStatus`,
  `markProcessing`, `markCompleted`, `markFailed`, `incrementRetry`, `cancel`);
* the `OperatorController` (`processPayout`, `retryPayout`,
  `batchProcessPayouts`, `processSinglePayout`).

Monetary amounts are modelled as rationals, SQL tables as lists of rows,
`NOW()` timestamps as a natural-number clock passed in by the caller, and the
external settlement providers (Stripe ACH, Coinbase wallet) as an oracle
function from dispatch requests to results.  Every controller-level function
also returns the list of provider dispatch calls it performed, so that
"never dispatches" claims can be stated directly.
-/

namespace TourPay

/-- Row of the `operator_payment_methods` table (the fields the payout
subsystem reads). -/
structure PaymentMethod where
  id : Nat
  operator_id : Nat
  payment_type : String
  is_primary : Bool
  status : String
  last_used_at : Option Nat
  deriving DecidableEq, Repr

/-- Row of the bookings table as read by the payout code: status,
double-payout flag and the amount charged for the tour. -/
structure Booking where
  id : Nat
  operator_id : Nat
  status : String
  payout_completed : Bool
  tour_price_usd : ℚ
  tour_name : String
  deriving DecidableEq, Repr

/-- Operator record; the payout code only reads its `status`. -/
structure Operator where
  id : Nat
  status : String
  deriving DecidableEq, Repr

/-- Provider transaction identifiers handed to `OperatorPayout.updateStatus`;
absent fields model SQL `NULL` / JS `undefined`. -/
structure TransactionIds where
  coinbase_transaction_id : Option String
  ach_transaction_id : Option String
  blockchain_tx_hash : Option String
  external_reference : Option String
  deriving DecidableEq, Repr

/-- TransactionIds with every field absent. -/
def noIds : TransactionIds := ⟨none, none, none, none⟩

/-- Row of the `operator_payouts` ledger table. -/
structure Payout where
  id : Nat
  operator_id : Nat
  booking_id : Option Nat
  payment_method_id : Nat
  amount_usdc : ℚ
  amount_usd : Option ℚ
  fee_amount : ℚ
  net_amount : ℚ
  payout_type : String
  status : String
  coinbase_transaction_id : Option String
  ach_transaction_id : Option String
  blockchain_tx_hash : Option String
  external_reference : Option String
  error_code : Option String
  error_message : Option String
  retry_count : Nat
  processed_at : Option Nat
  completed_at : Option Nat
  failed_at : Option Nat
  metadata : List (String × String)
  deriving DecidableEq, Repr

/-- SQL `COALESCE(new, old)` on nullable text columns. -/
def coalesce (newVal oldVal : Option String) : Option String :=
  match newVal with
  | some v => some v
  | none => oldVal

namespace OperatorPaymentService

/-- Embedding of `estimatePayoutFee(payment_type, amount)`: a lookup in the
literal `fees` object, with `|| 0` turning a missing key into a zero fee. -/
def estimatePayoutFee (payment_type : String) (amount : ℚ) : ℚ :=
  if payment_type = "ach" then 0
  else if payment_type = "coinbase_wallet" then amount * (1 / 100)
  else if payment_type = "bank_wire" then 25
  else if payment_type = "blockchain" then 1 / 10
  else 0

/-- Result of `validatePayoutEligibility`. -/
structure EligibilityResult where
  eligible : Bool
  errors : List String
  deriving DecidableEq, Repr

/-- Embedding of `validatePayoutEligibility(operator, booking)`: pushes one
message per failing condition, in source order, and is eligible exactly when
no message was pushed. -/
def validatePayoutEligibility (operator : Operator) (booking : Booking) :
    EligibilityResult :=
  let errors :=
    (if operator.status ≠ "approved"
      then ["Operator account is not approved"] else []) ++
    (if booking.status ≠ "checked_in" ∧ booking.status ≠ "completed"
      then ["Booking must be checked-in or completed before payout"] else []) ++
    (if booking.payout_completed
      then ["Payout already processed for this booking"] else [])
  { eligible := errors.isEmpty, errors := errors }

/-- Result returned by a provider adapter, as consumed by the controller
(`result.payoutId`, `result.transactionHash`). -/
structure ProviderResult where
  payoutId : Option String
  transactionHash : Option String
  deriving DecidableEq, Repr

/-- One dispatch to an external provider adapter (Stripe ACH or Coinbase
wallet): what the adapter is asked to transfer. -/
structure DispatchCall where
  payment_type : String
  payment_method_id : Nat
  amount_usdc : ℚ
  deriving DecidableEq, Repr

/-- Behaviour of the external settlement providers: each dispatch either
returns a provider result or fails with an error message. -/
def ProviderOracle := DispatchCall → Except String ProviderResult

/-- Embedding of the service-level `processPayout`: branches on
`payment_method.payment_type`; `ach` and `coinbase_wallet` reach an external
provider, `bank_wire` throws "not yet implemented" before any provider call,
and an unknown type throws "Unsupported payment method type".  Every error is
re-thrown with the "Failed to process payout: " prefix of the service-level
catch block.  The second component lists the provider calls performed. -/
def processPayout (oracle : ProviderOracle) (pm : PaymentMethod)
    (amount_usdc : ℚ) : Except String ProviderResult × List DispatchCall :=
  if pm.payment_type = "ach" ∨ pm.payment_type = "coinbase_wallet" then
    let call : DispatchCall :=
      { payment_type := pm.payment_type
        payment_method_id := pm.id
        amount_usdc := amount_usdc }
    match oracle call with
    | .ok r => (.ok r, [call])
    | .error e => (.error ("Failed to process payout: " ++ e), [call])
  else if pm.payment_type = "bank_wire" then
    (.error "Failed to process payout: Bank wire payouts not yet implemented",
      [])
  else
    (.error ("Failed to process payout: Unsupported payment method type: "
      ++ pm.payment_type), [])

end OperatorPaymentService

namespace OperatorPaymentMethod

/-- ABA weighted checksum over the nine digits, as in
`validateRoutingNumber`: 3·(d1+d4+d7) + 7·(d2+d5+d8) + (d3+d6+d9). -/
def checksum (digits : List Nat) : Nat :=
  3 * (digits.getD 0 0 + digits.getD 3 0 + digits.getD 6 0) +
  7 * (digits.getD 1 0 + digits.getD 4 0 + digits.getD 7 0) +
  (digits.getD 2 0 + digits.getD 5 0 + digits.getD 8 0)

/-- Embedding of `validateRoutingNumber`: rejects anything that is not nine
digits long, otherwise accepts exactly when the ABA checksum is divisible by
ten.  The routing number is modelled as its list of decimal digits. -/
def validateRoutingNumber (digits : List Nat) : Bool :=
  if digits.length ≠ 9 then false
  else checksum digits % 10 == 0

/-- Embedding of `OperatorPaymentMethod.setPrimary(id, operator_id)`: inside
one transaction, first `UPDATE ... SET is_primary = false WHERE operator_id`,
then `UPDATE ... SET is_primary = true WHERE id` (no ownership check), with
the second update's `RETURNING *` row as result (or none when no row has that
id). -/
def setPrimary (table : List PaymentMethod) (id operator_id : Nat) :
    List PaymentMethod × Option PaymentMethod :=
  let cleared := table.map fun m =>
    if m.operator_id == operator_id then { m with is_primary := false } else m
  let final := cleared.map fun m =>
    if m.id == id then { m with is_primary := true } else m
  (final,
    ((cleared.filter fun m => m.id == id).map
      fun m => { m with is_primary := true }).head?)

end OperatorPaymentMethod

namespace OperatorPayout

/-- Embedding of `OperatorPayout.create`: inserts a fresh row with status
`pending` and `net_amount = amount_usdc - fee_amount`. -/
def create (id operator_id : Nat) (booking_id : Option Nat)
    (payment_method_id : Nat) (amount_usdc : ℚ) (amount_usd : Option ℚ)
    (fee_amount : ℚ) (payout_type : String)
    (metadata : List (String × String)) : Payout :=
  { id := id
    operator_id := operator_id
    booking_id := booking_id
    payment_method_id := payment_method_id
    amount_usdc := amount_usdc
    amount_usd := amount_usd
    fee_amount := fee_amount
    net_amount := amount_usdc - fee_amount
    payout_type := payout_type
    status := "pending"
    coinbase_transaction_id := none
    ach_transaction_id := none
    blockchain_tx_hash := none
    external_reference := none
    error_code := none
    error_message := none
    retry_count := 0
    processed_at := none
    completed_at := none
    failed_at := none
    metadata := metadata }

/-- Effect of the `updateStatus` SQL on one matched row: set the requested
status, coalesce the provider ids, and stamp the status-specific timestamp. -/
def updateStatusRow (p : Payout) (status : String) (t : TransactionIds)
    (now : Nat) : Payout :=
  { p with
    status := status
    coinbase_transaction_id :=
      coalesce t.coinbase_transaction_id p.coinbase_transaction_id
    ach_transaction_id := coalesce t.ach_transaction_id p.ach_transaction_id
    blockchain_tx_hash := coalesce t.blockchain_tx_hash p.blockchain_tx_hash
    external_reference := coalesce t.external_reference p.external_reference
    processed_at := if status = "processing" then some now else p.processed_at
    completed_at := if status = "completed" then some now else p.completed_at
    failed_at := if status = "failed" then some now else p.failed_at }

/-- Embedding of `OperatorPayout.updateStatus(id, status, transaction_ids)`:
`UPDATE ... WHERE id = $6 RETURNING *` — no condition on the current status.
Returns the updated table and the returned row (none when no row matched). -/
def updateStatus (table : List Payout) (id : Nat) (status : String)
    (t : TransactionIds) (now : Nat) : List Payout × Option Payout :=
  (table.map fun p => if p.id == id then updateStatusRow p status t now else p,
    ((table.filter fun p => p.id == id).map
      fun p => updateStatusRow p status t now).head?)

/-- Embedding of `markProcessing`: `updateStatus` with status `processing`. -/
def markProcessing (table : List Payout) (id : Nat) (t : TransactionIds)
    (now : Nat) : List Payout × Option Payout :=
  updateStatus table id "processing" t now

/-- Embedding of `markCompleted`: `updateStatus` with status `completed`. -/
def markCompleted (table : List Payout) (id : Nat) (t : TransactionIds)
    (now : Nat) : List Payout × Option Payout :=
  updateStatus table id "completed" t now

/-- Effect of the `markFailed` SQL on one matched row. -/
def markFailedRow (p : Payout) (error_code error_message : String)
    (now : Nat) : Payout :=
  { p with
    status := "failed"
    error_code := some error_code
    error_message := some error_message
    failed_at := some now }

/-- Embedding of `OperatorPayout.markFailed(id, error_code, error_message)`:
`UPDATE ... SET status = failed, error fields, failed_at WHERE id = $3`. -/
def markFailed (table : List Payout) (id : Nat)
    (error_code error_message : String) (now : Nat) :
    List Payout × Option Payout :=
  (table.map fun p =>
      if p.id == id then markFailedRow p error_code error_message now else p,
    ((table.filter fun p => p.id == id).map
      fun p => markFailedRow p error_code error_message now).head?)

/-- Effect of `incrementRetry` on one matched row. -/
def incrementRetryRow (p : Payout) : Payout :=
  { p with retry_count := p.retry_count + 1 }

/-- Embedding of `OperatorPayout.incrementRetry(id)`:
`UPDATE ... SET retry_count = retry_count + 1 WHERE id = $1`. -/
def incrementRetry (table : List Payout) (id : Nat) :
    List Payout × Option Payout :=
  (table.map fun p => if p.id == id then incrementRetryRow p else p,
    ((table.filter fun p => p.id == id).map incrementRetryRow).head?)

/-- Effect of `cancel` on one matched row. -/
def cancelRow (p : Payout) : Payout :=
  { p with status := "cancelled" }

/-- Embedding of `OperatorPayout.cancel(id)`:
`UPDATE ... SET status = cancelled WHERE id = $1 AND status = pending
RETURNING *` — rows in any other status are not matched, so nothing changes
and no row is returned (the JS then yields `undefined`, without error). -/
def cancel (table : List Payout) (id : Nat) : List Payout × Option Payout :=
  (table.map fun p =>
      if p.id == id && p.status == "pending" then cancelRow p else p,
    ((table.filter fun p => p.id == id && p.status == "pending").map
      cancelRow).head?)

end OperatorPayout

/-- In-memory image of the persistence layer seen by the controller. -/
structure DB where
  operators : List Operator
  bookings : List Booking
  methods : List PaymentMethod
  payouts : List Payout
  nextPayoutId : Nat
  deriving DecidableEq, Repr

/-- `bookingModel.findById`. -/
def findBooking (db : DB) (id : Nat) : Option Booking :=
  db.bookings.find? fun b => b.id == id

/-- `paymentMethodModel.findById`. -/
def findMethod (db : DB) (id : Nat) : Option PaymentMethod :=
  db.methods.find? fun m => m.id == id

/-- `payoutModel.findById`. -/
def findPayout (db : DB) (id : Nat) : Option Payout :=
  db.payouts.find? fun p => p.id == id

/-- `paymentMethodModel.updateLastUsed(id)`. -/
def updateLastUsed (table : List PaymentMethod) (id : Nat) (now : Nat) :
    List PaymentMethod :=
  table.map fun m => if m.id == id then { m with last_used_at := some now } else m

/-- HTTP response produced by a controller action, keeping only status code
and the JSON fields the claims are about. -/
inductive Response where
  | ok (message : String)
  | notFound (error : String)
  | badRequest (error : String)
  | ineligible (error : String) (reasons : List String)
  | serverError (error : String)
  deriving DecidableEq, Repr

open OperatorPaymentService

/-- Outcome of one controller action: the updated persistence state, the
response sent, and the provider dispatch calls performed along the way. -/
structure StepResult where
  db : DB
  response : Response
  calls : List DispatchCall
  deriving Repr

namespace OperatorController

/-- Embedding of `OperatorController.processPayout`: load booking and
payment method (404 when missing), validate eligibility against a stub
operator hard-coded to `{status: approved}` (the source carries a
`TODO: Fetch actual operator` comment and never reads the operators table),
reject with the reasons list when ineligible, otherwise create a `pending`
ledger row, dispatch through the service, and on success mark the row
`processing` and touch the method's `last_used_at`.  A dispatch error is
caught by the surrounding try/catch and answered as a 500 with the error
message, with no further ledger update. -/
def processPayout (oracle : ProviderOracle) (db : DB)
    (booking_id operator_id payment_method_id : Nat) (now : Nat) :
    StepResult :=
  match findBooking db booking_id with
  | none => ⟨db, .notFound "Booking not found", []⟩
  | some booking =>
    match findMethod db payment_method_id with
    | none => ⟨db, .notFound "Payment method not found", []⟩
    | some pm =>
      let operator : Operator := { id := operator_id, status := "approved" }
      let validation := validatePayoutEligibility operator booking
      if !validation.eligible then
        ⟨db, .ineligible "Payout not eligible" validation.errors, []⟩
      else
        let fee := estimatePayoutFee pm.payment_type booking.tour_price_usd
        let payout := OperatorPayout.create db.nextPayoutId operator_id
          (some booking_id) payment_method_id booking.tour_price_usd
          (some booking.tour_price_usd) fee pm.payment_type
          [("booking_reference", toString booking.id),
            ("tour_name", booking.tour_name)]
        let db1 : DB :=
          { db with
            payouts := db.payouts ++ [payout]
            nextPayoutId := db.nextPayoutId + 1 }
        match OperatorPaymentService.processPayout oracle pm
            booking.tour_price_usd with
        | (.error e, calls) => ⟨db1, .serverError e, calls⟩
        | (.ok r, calls) =>
          let ids : TransactionIds :=
            { coinbase_transaction_id := r.payoutId
              ach_transaction_id := r.payoutId
              blockchain_tx_hash := r.transactionHash
              external_reference := none }
          let db2 : DB :=
            { db1 with
              payouts := (OperatorPayout.markProcessing db1.payouts
                payout.id ids now).1
              methods := updateLastUsed db1.methods payment_method_id now }
          ⟨db2, .ok "Payout processed successfully", calls⟩

/-- Embedding of `OperatorController.retryPayout`: 404 when the payout is
absent; 400 unless its status is `failed`; 400 when `retry_count >= 3`;
otherwise increment the retry counter, reload the payment method and
re-dispatch through the service, marking the row `processing` on success.
A missing payment method surfaces as the 500 from the null property read
inside the service call; a dispatch error surfaces as a 500. -/
def retryPayout (oracle : ProviderOracle) (db : DB) (payoutId : Nat)
    (now : Nat) : StepResult :=
  match findPayout db payoutId with
  | none => ⟨db, .notFound "Payout not found", []⟩
  | some payout =>
    if payout.status ≠ "failed" then
      ⟨db, .badRequest "Only failed payouts can be retried", []⟩
    else if payout.retry_count ≥ 3 then
      ⟨db, .badRequest "Maximum retry attempts reached", []⟩
    else
      let db1 : DB :=
        { db with payouts := (OperatorPayout.incrementRetry db.payouts payoutId).1 }
      match findMethod db1 payout.payment_method_id with
      | none =>
        ⟨db1, .serverError "Failed to process payout: Cannot read properties of null", []⟩
      | some pm =>
        match OperatorPaymentService.processPayout oracle pm
            payout.amount_usdc with
        | (.error e, calls) => ⟨db1, .serverError e, calls⟩
        | (.ok r, calls) =>
          let ids : TransactionIds :=
            { coinbase_transaction_id := r.payoutId
              ach_transaction_id := r.payoutId
              blockchain_tx_hash := r.transactionHash
              external_reference := none }
          let db2 : DB :=
            { db1 with
              payouts := (OperatorPayout.markProcessing db1.payouts
                payoutId ids now).1 }
          ⟨db2, .ok "Payout retry initiated", calls⟩

/-- One request of a batch (`{booking_id, operator_id, payment_method_id}`). -/
structure PayoutRequest where
  booking_id : Nat
  operator_id : Nat
  payment_method_id : Nat
  deriving DecidableEq, Repr

/-- Value returned by a successful `processSinglePayout`
(`{ payout, result }`). -/
structure SingleResult where
  payout : Payout
  result : ProviderResult
  deriving DecidableEq, Repr

/-- Embedding of the helper `OperatorController.processSinglePayout`: no
eligibility validation at all — it reads the booking and payment method
(a missing record raises the null property read, modelled as an error),
creates a `pending` ledger row, dispatches through the service, and marks
the row `processing` on success.  The `Except` carries any raised error to
the batch loop. -/
def processSinglePayout (oracle : ProviderOracle) (db : DB)
    (req : PayoutRequest) (now : Nat) :
    DB × Except String SingleResult × List DispatchCall :=
  match findMethod db req.payment_method_id with
  | none => (db, .error "Cannot read properties of null", [])
  | some pm =>
    match findBooking db req.booking_id with
    | none => (db, .error "Cannot read properties of null", [])
    | some booking =>
      let fee := estimatePayoutFee pm.payment_type booking.tour_price_usd
      let payout := OperatorPayout.create db.nextPayoutId req.operator_id
        (some req.booking_id) req.payment_method_id booking.tour_price_usd
        (some booking.tour_price_usd) fee pm.payment_type []
      let db1 : DB :=
        { db with
          payouts := db.payouts ++ [payout]
          nextPayoutId := db.nextPayoutId + 1 }
      match OperatorPaymentService.processPayout oracle pm
          booking.tour_price_usd with
      | (.error e, calls) => (db1, .error e, calls)
      | (.ok r, calls) =>
        let ids : TransactionIds :=
          { coinbase_transaction_id := r.payoutId
            ach_transaction_id := r.payoutId
            blockchain_tx_hash := r.transactionHash
            external_reference := none }
        let db2 : DB :=
          { db1 with
            payouts := (OperatorPayout.markProcessing db1.payouts
              payout.id ids now).1 }
        (db2, .ok ⟨payout, r⟩, calls)

/-- One entry of the batch results array: `{success: true, payout, result}`
on success, `{success: false, booking_id, error}` on failure. -/
structure BatchEntry where
  success : Bool
  payout : Option Payout
  result : Option ProviderResult
  booking_id : Option Nat
  error : Option String
  deriving DecidableEq, Repr

/-- Embedding of `OperatorController.batchProcessPayouts`: a sequential loop
over the requests, each wrapped in its own try/catch, pushing one result
entry per request in input order. -/
def batchProcessPayouts (oracle : ProviderOracle) (db : DB)
    (reqs : List PayoutRequest) (now : Nat) :
    DB × List BatchEntry × List DispatchCall :=
  match reqs with
  | [] => (db, [], [])
  | req :: rest =>
    let step := processSinglePayout oracle db req now
    let entry : BatchEntry :=
      match step.2.1 with
      | .ok s => ⟨true, some s.payout, some s.result, none, none⟩
      | .error e => ⟨false, none, none, some req.booking_id, some e⟩
    let tail := batchProcessPayouts oracle step.1 rest now
    (tail.1, entry :: tail.2.1, step.2.2 ++ tail.2.2)

/-- Success flag, error message and reported booking id of one batch item,
as a pure function of the request, the (read-only) bookings and methods
tables, and the provider oracle — independent of the ledger contents and of
the other requests in the batch. -/
def singleOutcome (oracle : ProviderOracle) (methods : List PaymentMethod)
    (bookings : List Booking) (req : PayoutRequest) :
    Bool × Option String × Option Nat :=
  match methods.find? fun m => m.id == req.payment_method_id with
  | none => (false, some "Cannot read properties of null", some req.booking_id)
  | some pm =>
    match bookings.find? fun b => b.id == req.booking_id with
    | none => (false, some "Cannot read properties of null", some req.booking_id)
    | some booking =>
      match (OperatorPaymentService.processPayout oracle pm
          booking.tour_price_usd).1 with
      | .error e => (false, some e, some req.booking_id)
      | .ok _ => (true, none, none)

end OperatorController

/-- Gross amount, fee and net amount of a ledger row, the triple that the
creation-time invariant is about. -/
def amountsOf (p : Payout) : ℚ × ℚ × ℚ :=
  (p.amount_usdc, p.fee_amount, p.net_amount)

/-- Success flag, error message and reported booking id of a batch result
entry. -/
def entryOutcome (e : OperatorController.BatchEntry) :
    Bool × Option String × Option Nat :=
  (e.success, e.error, e.booking_id)

namespace Fixtures

open OperatorPaymentService OperatorController

/-- Provider oracle whose every dispatch succeeds with transaction id
`tx_1`. -/
def oracleOk : ProviderOracle := fun _ => .ok ⟨some "tx_1", none⟩

/-- A checked-in, not-yet-paid booking for operator 5, price 500. -/
def bkOk : Booking :=
  { id := 1
    operator_id := 5
    status := "checked_in"
    payout_completed := false
    tour_price_usd := 500
    tour_name := "Reef tour" }

/-- A booking still in status `pending` (not yet checked in). -/
def bkPending : Booking :=
  { bkOk with id := 4, status := "pending" }

/-- An active ACH payment method of operator 5. -/
def pmAch : PaymentMethod :=
  { id := 2
    operator_id := 5
    payment_type := "ach"
    is_primary := true
    status := "active"
    last_used_at := none }

/-- A bank-wire payment method of operator 5 (its dispatch always fails,
since the wire adapter is a stub that throws "not yet implemented"). -/
def pmWire : PaymentMethod :=
  { pmAch with id := 3, payment_type := "bank_wire", is_primary := false }

/-- Operator 5 with a non-approved status. -/
def opSus : Operator := { id := 5, status := "suspended" }

/-- Persistence state holding the fixtures above and an empty ledger. -/
def dbC1 : DB :=
  { operators := [opSus]
    bookings := [bkOk, bkPending]
    methods := [pmAch, pmWire]
    payouts := []
    nextPayoutId := 1 }

/-- Payment method 1 of operator 20, currently primary. -/
def m1 : PaymentMethod :=
  { id := 1
    operator_id := 20
    payment_type := "ach"
    is_primary := true
    status := "active"
    last_used_at := none }

/-- Payment method 2 of operator 20, currently not primary. -/
def m2 : PaymentMethod :=
  { m1 with id := 2, payment_type := "coinbase_wallet", is_primary := false }

/-- Payment method 3 of operator 10, currently primary. -/
def m3 : PaymentMethod := { m1 with id := 3, operator_id := 10 }

/-- A pending ledger row, id 7. -/
def pPend : Payout :=
  OperatorPayout.create 7 5 (some 1) 2 500 (some 500) 0 "ach" []

/-- A completed ledger row, id 8. -/
def pDone : Payout := { pPend with id := 8, status := "completed" }

/-- A failed ledger row that exhausted its three retries, id 8. -/
def pF3 : Payout := { pPend with id := 8, status := "failed", retry_count := 3 }

/-- A failed ledger row with one prior retry, id 9. -/
def pF1 : Payout := { pPend with id := 9, status := "failed", retry_count := 1 }

/-- Persistence state for the retry scenarios. -/
def dbR : DB := { dbC1 with payouts := [pPend, pF3, pF1] }

end Fixtures

/-- C1: the code's `processPayout` does not honour the operator-status part
of the eligibility rule.  At a state whose stored operator 5 is
`suspended` — so `validatePayoutEligibility` with the actual operator would
report "Operator account is not approved" — the controller, which hard-codes
a stub operator with status `approved` (its `TODO: Fetch actual operator`),
answers 200 and creates a ledger row instead of failing with no row. -/
theorem processPayout_ignores_operator_status_bug :
    (Fixtures.dbC1.operators.find? fun o => o.id == 5) = some ⟨5, "suspended"⟩
    ∧ OperatorPaymentService.validatePayoutEligibility ⟨5, "suspended"⟩ Fixtures.bkOk
        = ⟨false, ["Operator account is not approved"]⟩
    ∧ (OperatorController.processPayout Fixtures.oracleOk Fixtures.dbC1 1 5 2 0).response
        = .ok "Payout processed successfully"
    ∧ ((OperatorController.processPayout Fixtures.oracleOk Fixtures.dbC1 1 5 2 0).db.payouts.map
        fun p => (p.booking_id, p.status)) = [(some 1, "processing")] :=
  ⟨by decide, by decide, by decide, by decide⟩

/-- C2 counterexample: dispatching a `bank_wire` payout definitively fails
("not yet implemented"), the error is propagated as a 500, yet the ledger
row just created is never marked failed: it remains `pending` with empty
error fields, contradicting the claim that `markFailed` runs before the
error is propagated. -/
theorem processPayout_wire_failure_stays_pending_cex :
    (OperatorController.processPayout Fixtures.oracleOk Fixtures.dbC1 1 5 3 0).response
      = .serverError "Failed to process payout: Bank wire payouts not yet implemented"
    ∧ ((OperatorController.processPayout Fixtures.oracleOk Fixtures.dbC1 1 5 3 0).db.payouts.map
        fun p => (p.status, p.error_code, p.error_message, p.failed_at))
      = [("pending", none, none, none)] :=
  ⟨by decide, by decide⟩

/-- C3 counterexample: the ledger's `markCompleted` moves a `pending` payout
directly to `completed` (no intermediate `processing` is required), and
`cancel` invoked on a `completed` payout changes nothing and returns no row
— it does not fail with an `InvalidTransitionError`. -/
theorem markCompleted_from_pending_cex :
    Fixtures.pPend.status = "pending"
    ∧ ((OperatorPayout.markCompleted [Fixtures.pPend] 7 noIds 5).1.map
        fun p => p.status) = ["completed"]
    ∧ Fixtures.pDone.status = "completed"
    ∧ OperatorPayout.cancel [Fixtures.pDone] 8 = ([Fixtures.pDone], none) :=
  ⟨by decide, by decide, by decide, rfl⟩

/-- C6 counterexample: `setPrimary(2, 10)` targets method 2, which belongs
to operator 20, not operator 10.  Instead of failing with `NotFoundError`
the call succeeds and returns the foreign method, and it leaves operator 20
with two `is_primary = true` rows (methods 1 and 2), violating the
at-most-one-primary invariant the claim asserts. -/
theorem setPrimary_cross_operator_cex :
    (OperatorPaymentMethod.setPrimary [Fixtures.m1, Fixtures.m2, Fixtures.m3] 2 10).2
      = some { Fixtures.m2 with is_primary := true }
    ∧ (((OperatorPaymentMethod.setPrimary [Fixtures.m1, Fixtures.m2, Fixtures.m3] 2 10).1.filter
        fun m => m.operator_id == 20 && m.is_primary).map fun m => m.id) = [1, 2] :=
  ⟨by decide, by decide⟩

/-- Unfolding lemma: the `ach` fee entry. -/
theorem feeAch (a : ℚ) : OperatorPaymentService.estimatePayoutFee "ach" a = 0 := by
  unfold OperatorPaymentService.estimatePayoutFee
  rw [if_pos rfl]

/-- Unfolding lemma: the `coinbase_wallet` fee entry. -/
theorem feeWallet (a : ℚ) :
    OperatorPaymentService.estimatePayoutFee "coinbase_wallet" a = a * (1 / 100) := by
  unfold OperatorPaymentService.estimatePayoutFee
  rw [if_neg (by decide), if_pos rfl]

/-- Unfolding lemma: the `bank_wire` fee entry. -/
theorem feeWire (a : ℚ) :
    OperatorPaymentService.estimatePayoutFee "bank_wire" a = 25 := by
  unfold OperatorPaymentService.estimatePayoutFee
  rw [if_neg (by decide), if_neg (by decide), if_pos rfl]

/-- Unfolding lemma: the `blockchain` fee entry. -/
theorem feeBlockchain (a : ℚ) :
    OperatorPaymentService.estimatePayoutFee "blockchain" a = 1 / 10 := by
  unfold OperatorPaymentService.estimatePayoutFee
  rw [if_neg (by decide), if_neg (by decide), if_neg (by decide), if_pos rfl]

/-- C7 counterexample: for a `coinbase_wallet` payout the fee is exactly
1% of the amount — `estimatePayoutFee "coinbase_wallet" 100 = 1` — and no
positive flat network-cost component exists that is added on top of the 1%
(the flat `0.10` network cost belongs to the separate `blockchain` kind). -/
theorem estimatePayoutFee_wallet_flat_cex :
    OperatorPaymentService.estimatePayoutFee "coinbase_wallet" 100 = 1
    ∧ ¬ ∃ c : ℚ, 0 < c ∧ ∀ a : ℚ,
        OperatorPaymentService.estimatePayoutFee "coinbase_wallet" a
          = a * (1 / 100) + c := by
  constructor
  · rw [feeWallet]
    norm_num
  · rintro ⟨c, hc, h⟩
    have h0 := h 0
    rw [feeWallet 0] at h0
    have : c = 0 := by linarith [h0]
    exact absurd this (ne_of_gt hc)

/-- C7 (amended): `estimatePayoutFee` is a pure function of kind and amount
with fee 0 for ACH, exactly amount × 0.01 for a wallet payout (no flat
component), a flat 25 for wire and a flat 0.10 for the `blockchain` kind,
both independent of amount, and 0 for any unrecognized kind, without
raising. -/
theorem estimatePayoutFee_spec (kind : String) (amount : ℚ) :
    OperatorPaymentService.estimatePayoutFee "ach" amount = 0
    ∧ OperatorPaymentService.estimatePayoutFee "coinbase_wallet" amount
        = amount * (1 / 100)
    ∧ OperatorPaymentService.estimatePayoutFee "bank_wire" amount = 25
    ∧ OperatorPaymentService.estimatePayoutFee "blockchain" amount = 1 / 10
    ∧ (kind ≠ "ach" → kind ≠ "coinbase_wallet" → kind ≠ "bank_wire" →
        kind ≠ "blockchain" →
        OperatorPaymentService.estimatePayoutFee kind amount = 0) := by
  refine ⟨feeAch amount, feeWallet amount, feeWire amount, feeBlockchain amount, ?_⟩
  intro h1 h2 h3 h4
  unfold OperatorPaymentService.estimatePayoutFee
  rw [if_neg h1, if_neg h2, if_neg h3, if_neg h4]

/-- Witness for the amended C7 theorem at the unrecognized kind "paypal". -/
theorem estimatePayoutFee_spec_witness :
    OperatorPaymentService.estimatePayoutFee "paypal" 7 = 0 :=
  (estimatePayoutFee_spec "paypal" 7).2.2.2.2 (by decide) (by decide)
    (by decide) (by decide)

/-- C8: `validateRoutingNumber` on a nine-digit routing number accepts
exactly when the ABA weighted checksum is divisible by ten, and rejects any
input that is not nine digits long. -/
theorem validateRoutingNumber_spec (digits : List Nat) :
    (digits.length = 9 →
      (OperatorPaymentMethod.validateRoutingNumber digits = true ↔
        OperatorPaymentMethod.checksum digits % 10 = 0))
    ∧ (digits.length ≠ 9 →
        OperatorPaymentMethod.validateRoutingNumber digits = false) := by
  constructor
  · intro h9
    unfold OperatorPaymentMethod.validateRoutingNumber
    rw [if_neg (by simp [h9])]
    simp
  · intro h
    unfold OperatorPaymentMethod.validateRoutingNumber
    rw [if_pos h]

/-- Witness for C8: the spec's example routing numbers — `021000021` passes
the checksum and is accepted, `021000022` fails it and is rejected. -/
theorem validateRoutingNumber_spec_witness :
    OperatorPaymentMethod.validateRoutingNumber [0, 2, 1, 0, 0, 0, 0, 2, 1] = true
    ∧ OperatorPaymentMethod.validateRoutingNumber [0, 2, 1, 0, 0, 0, 0, 2, 2] = false := by
  constructor
  · exact ((validateRoutingNumber_spec [0, 2, 1, 0, 0, 0, 0, 2, 1]).1 (by decide)).mpr
      (by decide)
  · have h := (validateRoutingNumber_spec [0, 2, 1, 0, 0, 0, 0, 2, 2]).1 (by decide)
    simp only [show OperatorPaymentMethod.checksum [0, 2, 1, 0, 0, 0, 0, 2, 2] % 10 = 1
      from by decide] at h
    simpa using h

/-- C2 (amended): whenever the provider dispatch inside `processPayout`
fails, the error is propagated to the caller as a 500 with the error message
— the failure is not silently dropped — but the ledger entry just created is
NOT marked failed: it is left behind in status `pending` with empty error
fields (`markFailed` is never invoked on this path). -/
theorem processPayout_dispatch_failure_propagates_leaves_pending
    (oracle : OperatorPaymentService.ProviderOracle) (db : DB)
    (booking_id operator_id payment_method_id now : Nat)
    (booking : Booking) (pm : PaymentMethod) (e : String)
    (calls : List OperatorPaymentService.DispatchCall)
    (hb : findBooking db booking_id = some booking)
    (hm : findMethod db payment_method_id = some pm)
    (helig : (OperatorPaymentService.validatePayoutEligibility
        ⟨operator_id, "approved"⟩ booking).eligible = true)
    (hdisp : OperatorPaymentService.processPayout oracle pm booking.tour_price_usd
        = (.error e, calls)) :
    (OperatorController.processPayout oracle db booking_id operator_id
        payment_method_id now).response = .serverError e
    ∧ ∃ p : Payout,
        (OperatorController.processPayout oracle db booking_id operator_id
          payment_method_id now).db.payouts = db.payouts ++ [p]
        ∧ p.status = "pending" ∧ p.error_code = none ∧ p.error_message = none := by
  simp only [OperatorController.processPayout, hb, hm, helig, Bool.not_true,
    Bool.false_eq_true, if_false, hdisp]
  exact ⟨trivial, _, rfl, rfl, rfl, rfl⟩

/-- Witness for the amended C2 theorem: the bank-wire fixture, whose
dispatch deterministically fails with "not yet implemented". -/
theorem processPayout_dispatch_failure_witness :
    (OperatorController.processPayout Fixtures.oracleOk Fixtures.dbC1 1 5 3 0).response
      = .serverError "Failed to process payout: Bank wire payouts not yet implemented"
    ∧ ∃ p : Payout,
        (OperatorController.processPayout Fixtures.oracleOk Fixtures.dbC1 1 5 3 0).db.payouts
          = Fixtures.dbC1.payouts ++ [p]
        ∧ p.status = "pending" ∧ p.error_code = none ∧ p.error_message = none :=
  processPayout_dispatch_failure_propagates_leaves_pending Fixtures.oracleOk
    Fixtures.dbC1 1 5 3 0 Fixtures.bkOk Fixtures.pmWire
    "Failed to process payout: Bank wire payouts not yet implemented" []
    rfl rfl (by decide) rfl

/-- C3 (amended): the ledger's status operations enforce no state machine.
`markCompleted` stamps `completed` on the matching row whatever its current
status (so `pending` can go directly to `completed`), and `cancel` updates
only rows whose status is `pending` — invoked when the matching rows are in
any other state it changes nothing and returns no row, raising no
`InvalidTransitionError`. -/
theorem ledger_no_transition_guard (table : List Payout) (id : Nat)
    (t : TransactionIds) (now : Nat) :
    (∀ p, p ∈ (OperatorPayout.markCompleted table id t now).1 → p.id = id →
      p.status = "completed")
    ∧ ((∀ p, p ∈ table → p.id = id → p.status ≠ "pending") →
        OperatorPayout.cancel table id = (table, none)) := by
  constructor
  · intro p hp hid
    unfold OperatorPayout.markCompleted OperatorPayout.updateStatus at hp
    simp only [List.mem_map] at hp
    obtain ⟨q, hq, hpq⟩ := hp
    by_cases h : q.id == id
    · rw [if_pos h] at hpq
      rw [← hpq]
      rfl
    · rw [if_neg h] at hpq
      subst hpq
      exact absurd (by simpa using hid) h
  · intro hnp
    unfold OperatorPayout.cancel
    have hmap : (table.map fun p =>
        if p.id == id && p.status == "pending" then OperatorPayout.cancelRow p
        else p) = table := by
      conv_rhs => rw [← List.map_id table]
      apply List.map_congr_left
      intro p hp
      rw [if_neg]
      · rfl
      · intro hcond
        simp only [Bool.and_eq_true, beq_iff_eq] at hcond
        exact hnp p hp hcond.1 hcond.2
    have hfil : (table.filter fun p => p.id == id && p.status == "pending") = [] := by
      rw [List.filter_eq_nil_iff]
      intro p hp
      simp only [Bool.and_eq_true, beq_iff_eq, not_and]
      exact fun h1 => hnp p hp h1
    rw [hmap, hfil]
    rfl

/-- Witness for the amended C3 theorem: stamping `completed` on the pending
fixture row, and cancelling a completed row as a silent no-op. -/
theorem ledger_no_transition_guard_witness :
    (OperatorPayout.updateStatusRow Fixtures.pPend "completed" noIds 5).status
      = "completed"
    ∧ OperatorPayout.cancel [Fixtures.pDone] 8 = ([Fixtures.pDone], none) :=
  ⟨(ledger_no_transition_guard [Fixtures.pPend] 7 noIds 5).1
      (OperatorPayout.updateStatusRow Fixtures.pPend "completed" noIds 5)
      (List.Mem.head _) rfl,
    (ledger_no_transition_guard [Fixtures.pDone] 8 noIds 5).2 (by
      intro p hp _
      simp only [List.mem_singleton] at hp
      subst hp
      decide)⟩

/-- Status transitions leave the (id, retry_count) projection of every
ledger row unchanged. -/
theorem updateStatus_map_id_retry (table : List Payout) (pid : Nat) (st : String)
    (t : TransactionIds) (now : Nat) :
    ((OperatorPayout.updateStatus table pid st t now).1.map
        fun q => (q.id, q.retry_count))
      = table.map fun q => (q.id, q.retry_count) := by
  simp only [OperatorPayout.updateStatus]
  rw [List.map_map]
  apply List.map_congr_left
  intro p hp
  by_cases h : p.id = pid <;> simp [h, OperatorPayout.updateStatusRow]

/-- `incrementRetry` adds one to the retry counter of the matching rows and
leaves every other row's counter unchanged. -/
theorem incrementRetry_map_id_retry (table : List Payout) (pid : Nat) :
    ((OperatorPayout.incrementRetry table pid).1.map fun q => (q.id, q.retry_count))
      = table.map fun q =>
          (q.id, if q.id == pid then q.retry_count + 1 else q.retry_count) := by
  simp only [OperatorPayout.incrementRetry]
  rw [List.map_map]
  apply List.map_congr_left
  intro p hp
  by_cases h : p.id = pid <;> simp [h, OperatorPayout.incrementRetryRow]

/-- C4: `retryPayout` checks its guards in sequence — 404 when the payout is
absent; "Only failed payouts can be retried" unless the status is `failed`;
"Maximum retry attempts reached" when `retry_count ≥ 3`, in which case no
provider adapter is ever dispatched and the state is untouched; otherwise it
increments the retry counter and re-dispatches with the reloaded payment
method. -/
theorem retryPayout_guards (oracle : OperatorPaymentService.ProviderOracle)
    (db : DB) (pid now : Nat) :
    (findPayout db pid = none →
      OperatorController.retryPayout oracle db pid now
        = ⟨db, .notFound "Payout not found", []⟩)
    ∧ (∀ p, findPayout db pid = some p → p.status ≠ "failed" →
        OperatorController.retryPayout oracle db pid now
          = ⟨db, .badRequest "Only failed payouts can be retried", []⟩)
    ∧ (∀ p, findPayout db pid = some p → p.status = "failed" → 3 ≤ p.retry_count →
        OperatorController.retryPayout oracle db pid now
          = ⟨db, .badRequest "Maximum retry attempts reached", []⟩)
    ∧ (∀ p pm, findPayout db pid = some p → p.status = "failed" →
        p.retry_count < 3 → findMethod db p.payment_method_id = some pm →
        ((OperatorController.retryPayout oracle db pid now).db.payouts.map
            fun q => (q.id, q.retry_count))
          = (db.payouts.map fun q =>
              (q.id, if q.id == pid then q.retry_count + 1 else q.retry_count))
        ∧ (OperatorController.retryPayout oracle db pid now).calls
            = (OperatorPaymentService.processPayout oracle pm p.amount_usdc).2) := by
  refine ⟨?_, ?_, ?_, ?_⟩
  · intro hnone
    simp only [OperatorController.retryPayout, hnone]
  · intro p hp hst
    simp only [OperatorController.retryPayout, hp]
    rw [if_pos hst]
  · intro p hp hst hrc
    simp only [OperatorController.retryPayout, hp]
    rw [if_neg (show ¬(p.status ≠ "failed") from by simp [hst]),
      if_pos (show p.retry_count ≥ 3 from hrc)]
  · intro p pm hp hst hrc hm
    have hmm : findMethod
        { db with payouts := (OperatorPayout.incrementRetry db.payouts pid).1 }
        p.payment_method_id = some pm := hm
    simp only [OperatorController.retryPayout, hp]
    rw [if_neg (show ¬(p.status ≠ "failed") from by simp [hst]),
      if_neg (show ¬(p.retry_count ≥ 3) from Nat.not_le.mpr hrc)]
    simp only [hmm]
    rcases hsvc : OperatorPaymentService.processPayout oracle pm p.amount_usdc
      with ⟨res, calls2⟩
    cases res with
    | error e =>
      simp only [hsvc]
      exact ⟨incrementRetry_map_id_retry db.payouts pid, trivial⟩
    | ok r =>
      simp only [hsvc]
      refine ⟨?_, trivial⟩
      exact (updateStatus_map_id_retry (OperatorPayout.incrementRetry db.payouts pid).1
        pid "processing" ⟨r.payoutId, r.payoutId, r.transactionHash, none⟩ now).trans
        (incrementRetry_map_id_retry db.payouts pid)

/-- Witness for C4 at the retry fixtures: a missing id, a pending payout, a
failed payout with three retries (no dispatch), and a failed payout with one
retry that is incremented and re-dispatched through the ACH method. -/
theorem retryPayout_guards_witness :
    OperatorController.retryPayout Fixtures.oracleOk Fixtures.dbR 99 0
      = ⟨Fixtures.dbR, .notFound "Payout not found", []⟩
    ∧ OperatorController.retryPayout Fixtures.oracleOk Fixtures.dbR 7 0
      = ⟨Fixtures.dbR, .badRequest "Only failed payouts can be retried", []⟩
    ∧ OperatorController.retryPayout Fixtures.oracleOk Fixtures.dbR 8 0
      = ⟨Fixtures.dbR, .badRequest "Maximum retry attempts reached", []⟩
    ∧ ((OperatorController.retryPayout Fixtures.oracleOk Fixtures.dbR 9 0).db.payouts.map
        fun q => (q.id, q.retry_count))
      = (Fixtures.dbR.payouts.map fun q =>
          (q.id, if q.id == 9 then q.retry_count + 1 else q.retry_count))
    ∧ (OperatorController.retryPayout Fixtures.oracleOk Fixtures.dbR 9 0).calls
      = (OperatorPaymentService.processPayout Fixtures.oracleOk Fixtures.pmAch
          Fixtures.pF1.amount_usdc).2 :=
  ⟨(retryPayout_guards Fixtures.oracleOk Fixtures.dbR 99 0).1 rfl,
    (retryPayout_guards Fixtures.oracleOk Fixtures.dbR 7 0).2.1 Fixtures.pPend rfl
      (by decide),
    (retryPayout_guards Fixtures.oracleOk Fixtures.dbR 8 0).2.2.1 Fixtures.pF3 rfl rfl
      (by decide),
    ((retryPayout_guards Fixtures.oracleOk Fixtures.dbR 9 0).2.2.2 Fixtures.pF1
      Fixtures.pmAch rfl rfl (by decide) rfl).1,
    ((retryPayout_guards Fixtures.oracleOk Fixtures.dbR 9 0).2.2.2 Fixtures.pF1
      Fixtures.pmAch rfl rfl (by decide) rfl).2⟩

/-- C5: at creation `net_amount = amount_usdc - fee_amount` (and the gross
amount and fee are stored as given), and every subsequent ledger operation —
`updateStatus`, `markProcessing`, `markCompleted`, `markFailed`,
`incrementRetry`, `cancel` — leaves the (gross, fee, net) triple of every
row unchanged. -/
theorem net_amount_fixed_at_creation (id operator_id : Nat)
    (booking_id : Option Nat) (payment_method_id : Nat) (amount_usdc : ℚ)
    (amount_usd : Option ℚ) (fee_amount : ℚ) (payout_type : String)
    (md : List (String × String)) (table : List Payout) (pid : Nat)
    (st : String) (t : TransactionIds) (ec em : String) (now : Nat) :
    (OperatorPayout.create id operator_id booking_id payment_method_id
        amount_usdc amount_usd fee_amount payout_type md).net_amount
      = amount_usdc - fee_amount
    ∧ (OperatorPayout.create id operator_id booking_id payment_method_id
        amount_usdc amount_usd fee_amount payout_type md).amount_usdc
      = amount_usdc
    ∧ (OperatorPayout.create id operator_id booking_id payment_method_id
        amount_usdc amount_usd fee_amount payout_type md).fee_amount
      = fee_amount
    ∧ (OperatorPayout.updateStatus table pid st t now).1.map amountsOf
      = table.map amountsOf
    ∧ (OperatorPayout.markProcessing table pid t now).1.map amountsOf
      = table.map amountsOf
    ∧ (OperatorPayout.markCompleted table pid t now).1.map amountsOf
      = table.map amountsOf
    ∧ (OperatorPayout.markFailed table pid ec em now).1.map amountsOf
      = table.map amountsOf
    ∧ (OperatorPayout.incrementRetry table pid).1.map amountsOf
      = table.map amountsOf
    ∧ (OperatorPayout.cancel table pid).1.map amountsOf = table.map amountsOf := by
  refine ⟨rfl, rfl, rfl, ?_, ?_, ?_, ?_, ?_, ?_⟩ <;>
  · simp only [OperatorPayout.updateStatus, OperatorPayout.markProcessing,
      OperatorPayout.markCompleted, OperatorPayout.markFailed,
      OperatorPayout.incrementRetry, OperatorPayout.cancel]
    rw [List.map_map]
    apply List.map_congr_left
    intro p hp
    by_cases h : p.id = pid
    all_goals by_cases h2 : p.status = "pending"
    all_goals simp [h, h2, amountsOf, OperatorPayout.updateStatusRow,
      OperatorPayout.markFailedRow, OperatorPayout.incrementRetryRow,
      OperatorPayout.cancelRow]

/-- Unfolding lemma: the table produced by `setPrimary` is clear-then-set. -/
theorem setPrimary_fst_eq (table : List PaymentMethod) (id opid : Nat) :
    (OperatorPaymentMethod.setPrimary table id opid).1
      = (table.map fun m =>
          if m.operator_id == opid then { m with is_primary := false } else m).map
          fun m => if m.id == id then { m with is_primary := true } else m := rfl

/-- Unfolding lemma: the row returned by `setPrimary`. -/
theorem setPrimary_snd_eq (table : List PaymentMethod) (id opid : Nat) :
    (OperatorPaymentMethod.setPrimary table id opid).2
      = (((table.map fun m =>
          if m.operator_id == opid then { m with is_primary := false } else m).filter
          fun m => m.id == id).map fun m => { m with is_primary := true }).head? := rfl

/-- C6 (amended): `setPrimary` clears `is_primary` on all of the operator's
methods and sets it on the row with the target id with no ownership check —
a nonexistent id returns no row and raises no `NotFoundError` (while still
clearing the operator's primaries); after any call, a method of the given
operator is primary exactly when it carries the target id (so sequences of
calls targeting the operator's own methods keep at most one primary per
operator); and a repeated call with the same arguments leaves the table
unchanged (idempotence). -/
theorem setPrimary_no_ownership_check (table : List PaymentMethod) (id opid : Nat) :
    ((∀ m, m ∈ table → m.id ≠ id) →
      OperatorPaymentMethod.setPrimary table id opid
        = (table.map fun m =>
            if m.operator_id == opid then { m with is_primary := false } else m,
          none))
    ∧ (∀ x, x ∈ (OperatorPaymentMethod.setPrimary table id opid).1 →
        x.operator_id = opid → (x.is_primary = true ↔ x.id = id))
    ∧ (OperatorPaymentMethod.setPrimary
        (OperatorPaymentMethod.setPrimary table id opid).1 id opid).1
      = (OperatorPaymentMethod.setPrimary table id opid).1 := by
  have hcid : ∀ m, m ∈ (table.map fun m =>
      if m.operator_id == opid then { m with is_primary := false } else m) →
      ∃ q, q ∈ table ∧ m.id = q.id ∧ m.operator_id = q.operator_id := by
    intro m hm
    obtain ⟨q, hq, hfq⟩ := List.mem_map.mp hm
    refine ⟨q, hq, ?_, ?_⟩ <;>
    · rw [← hfq]
      by_cases h : (q.operator_id == opid : Bool)
      · rw [if_pos h]
      · rw [if_neg h]
  refine ⟨?_, ?_, ?_⟩
  · intro habs
    have h2 : ∀ m, m ∈ (table.map fun m =>
        if m.operator_id == opid then { m with is_primary := false } else m) →
        ¬(m.id == id) = true := by
      intro m hm
      obtain ⟨q, hq, hid, _⟩ := hcid m hm
      simp only [beq_iff_eq, hid]
      exact habs q hq
    have hmap : ((table.map fun m =>
        if m.operator_id == opid then { m with is_primary := false } else m).map
        fun m => if m.id == id then { m with is_primary := true } else m)
        = (table.map fun m =>
            if m.operator_id == opid then { m with is_primary := false } else m) := by
      conv_rhs => rw [← List.map_id (table.map fun m =>
        if m.operator_id == opid then { m with is_primary := false } else m)]
      apply List.map_congr_left
      intro m hm
      rw [if_neg (h2 m hm)]
      rfl
    have hfil : ((table.map fun m =>
        if m.operator_id == opid then { m with is_primary := false } else m).filter
        fun m => m.id == id) = [] := by
      rw [List.filter_eq_nil_iff]
      exact h2
    have e1 := setPrimary_fst_eq table id opid
    have e2 := setPrimary_snd_eq table id opid
    rw [hmap] at e1
    rw [hfil] at e2
    exact Prod.ext e1 e2
  · intro x hx hop
    rw [setPrimary_fst_eq, List.map_map] at hx
    obtain ⟨q, hq, hfq⟩ := List.mem_map.mp hx
    simp only [Function.comp] at hfq
    by_cases h1 : (q.operator_id == opid : Bool) <;>
      by_cases h2 : (q.id == id : Bool) <;>
      simp only [h1, h2, if_pos, if_neg, Bool.not_eq_true] at hfq <;>
      subst hfq <;>
      simp_all
  · rw [setPrimary_fst_eq, setPrimary_fst_eq]
    simp only [List.map_map]
    apply List.map_congr_left
    intro m _
    simp only [Function.comp]
    by_cases h1 : m.operator_id = opid <;> by_cases h2 : m.id = id <;>
      simp [h1, h2]

/-- Witness for the amended C6 theorem: a nonexistent target id returns no
row while still clearing operator 20's primaries; after `setPrimary(1, 20)`
the first row of the result is primary exactly because its id is the
target; and repeating `setPrimary(1, 20)` leaves the table unchanged. -/
theorem setPrimary_no_ownership_check_witness :
    OperatorPaymentMethod.setPrimary [Fixtures.m1, Fixtures.m2, Fixtures.m3] 99 20
      = ([Fixtures.m1, Fixtures.m2, Fixtures.m3].map fun m =>
          if m.operator_id == 20 then { m with is_primary := false } else m,
        none)
    ∧ (({ Fixtures.m1 with is_primary := true } : PaymentMethod).is_primary = true
        ↔ ({ Fixtures.m1 with is_primary := true } : PaymentMethod).id = 1)
    ∧ (OperatorPaymentMethod.setPrimary
        (OperatorPaymentMethod.setPrimary [Fixtures.m1, Fixtures.m2, Fixtures.m3] 1 20).1
        1 20).1
      = (OperatorPaymentMethod.setPrimary [Fixtures.m1, Fixtures.m2, Fixtures.m3] 1 20).1 :=
  ⟨(setPrimary_no_ownership_check [Fixtures.m1, Fixtures.m2, Fixtures.m3] 99 20).1
      (by decide),
    (setPrimary_no_ownership_check [Fixtures.m1, Fixtures.m2, Fixtures.m3] 1 20).2.1
      { Fixtures.m1 with is_primary := true } (List.Mem.head _) rfl,
    (setPrimary_no_ownership_check [Fixtures.m1, Fixtures.m2, Fixtures.m3] 1 20).2.2⟩

/-- Processing one batch item never changes the payment-method or booking
tables it reads from. -/
theorem processSinglePayout_preserves (oracle : OperatorPaymentService.ProviderOracle)
    (db : DB) (req : OperatorController.PayoutRequest) (now : Nat) :
    (OperatorController.processSinglePayout oracle db req now).1.methods = db.methods
    ∧ (OperatorController.processSinglePayout oracle db req now).1.bookings
        = db.bookings := by
  unfold OperatorController.processSinglePayout
  constructor <;> (repeat' split) <;> rfl

/-- The success flag, error message and reported booking id of one batch
item coincide with `singleOutcome`, a pure function of the request, the
method and booking tables and the oracle alone. -/
theorem processSinglePayout_outcome (oracle : OperatorPaymentService.ProviderOracle)
    (db : DB) (req : OperatorController.PayoutRequest) (now : Nat) :
    (match (OperatorController.processSinglePayout oracle db req now).2.1 with
      | .ok _ => (true, (none : Option String), (none : Option Nat))
      | .error e => (false, some e, some req.booking_id))
    = OperatorController.singleOutcome oracle db.methods db.bookings req := by
  unfold OperatorController.processSinglePayout OperatorController.singleOutcome
    findMethod findBooking
  cases hm : db.methods.find? fun m => m.id == req.payment_method_id with
  | none => simp [hm]
  | some pm =>
    cases hb : db.bookings.find? fun b => b.id == req.booking_id with
    | none => simp [hm, hb]
    | some booking =>
      rcases hsvc : OperatorPaymentService.processPayout oracle pm
        booking.tour_price_usd with ⟨res, calls⟩
      cases res <;> simp [hm, hb, hsvc]

/-- The batch loop maps each request to the outcome it would have on its
own, threading the state left by earlier items without affecting it. -/
theorem batch_outcome_map (oracle : OperatorPaymentService.ProviderOracle) (now : Nat) :
    ∀ (reqs : List OperatorController.PayoutRequest) (db : DB),
      ((OperatorController.batchProcessPayouts oracle db reqs now).2.1.map entryOutcome)
        = reqs.map (OperatorController.singleOutcome oracle db.methods db.bookings) := by
  intro reqs
  induction reqs with
  | nil => intro db; rfl
  | cons req rest ih =>
    intro db
    simp only [OperatorController.batchProcessPayouts, List.map_cons]
    refine congrArg₂ List.cons ?_ ?_
    · have h := processSinglePayout_outcome oracle db req now
      rcases hstep : (OperatorController.processSinglePayout oracle db req now).2.1
        with e | s <;> rw [hstep] at h <;> simpa [entryOutcome] using h
    · rw [ih (OperatorController.processSinglePayout oracle db req now).1,
        (processSinglePayout_preserves oracle db req now).1,
        (processSinglePayout_preserves oracle db req now).2]

/-- C9: `batchProcessPayouts` returns exactly one result entry per request,
in input order, and each entry's success flag, error message and reported
booking id are a function of that request alone (with the initial method and
booking tables and the provider oracle) — one request's failure neither
aborts nor alters the outcome of any other request. -/
theorem batchProcessPayouts_isolated (oracle : OperatorPaymentService.ProviderOracle)
    (db : DB) (reqs : List OperatorController.PayoutRequest) (now : Nat) :
    (OperatorController.batchProcessPayouts oracle db reqs now).2.1.length = reqs.length
    ∧ ((OperatorController.batchProcessPayouts oracle db reqs now).2.1.map entryOutcome)
        = reqs.map (OperatorController.singleOutcome oracle db.methods db.bookings) := by
  refine ⟨?_, batch_outcome_map oracle now reqs db⟩
  have h := congrArg List.length (batch_outcome_map oracle now reqs db)
  simpa using h

/-- Updating a status never changes the number of ledger rows. -/
theorem updateStatus_fst_length (table : List Payout) (pid : Nat) (st : String)
    (t : TransactionIds) (now : Nat) :
    (OperatorPayout.updateStatus table pid st t now).1.length = table.length := by
  simp [OperatorPayout.updateStatus]

/-- C10: `processSinglePayout` performs no eligibility validation: whenever
the booking and the payment method exist it creates a ledger row and invokes
the provider dispatch, with no condition on the booking's status or its
payout-completed flag — whereas the single `processPayout` path on a booking
that is neither checked-in nor completed leaves the state untouched, makes
no dispatch call, and answers with the eligibility reasons. -/
theorem processSinglePayout_skips_eligibility
    (oracle : OperatorPaymentService.ProviderOracle) (db : DB)
    (req : OperatorController.PayoutRequest) (now : Nat)
    (booking : Booking) (pm : PaymentMethod)
    (hm : findMethod db req.payment_method_id = some pm)
    (hb : findBooking db req.booking_id = some booking) :
    (OperatorController.processSinglePayout oracle db req now).1.payouts.length
      = db.payouts.length + 1
    ∧ (OperatorController.processSinglePayout oracle db req now).2.2
        = (OperatorPaymentService.processPayout oracle pm booking.tour_price_usd).2
    ∧ (booking.status ≠ "checked_in" → booking.status ≠ "completed" →
        (OperatorController.processPayout oracle db req.booking_id req.operator_id
            req.payment_method_id now).db = db
        ∧ (OperatorController.processPayout oracle db req.booking_id req.operator_id
            req.payment_method_id now).calls = []
        ∧ (OperatorController.processPayout oracle db req.booking_id req.operator_id
            req.payment_method_id now).response
          = .ineligible "Payout not eligible"
              (OperatorPaymentService.validatePayoutEligibility
                ⟨req.operator_id, "approved"⟩ booking).errors) := by
  refine ⟨?_, ?_, ?_⟩
  · simp only [OperatorController.processSinglePayout, hm, hb]
    rcases hsvc : OperatorPaymentService.processPayout oracle pm booking.tour_price_usd
      with ⟨res, calls⟩
    cases res with
    | error e => simp [hsvc]
    | ok r => simp [hsvc, updateStatus_fst_length, OperatorPayout.markProcessing]
  · simp only [OperatorController.processSinglePayout, hm, hb]
    rcases hsvc : OperatorPaymentService.processPayout oracle pm booking.tour_price_usd
      with ⟨res, calls⟩
    cases res with
    | error e => simp [hsvc]
    | ok r => simp [hsvc]
  · intro hs1 hs2
    have helig : (OperatorPaymentService.validatePayoutEligibility
        ⟨req.operator_id, "approved"⟩ booking).eligible = false := by
      simp [OperatorPaymentService.validatePayoutEligibility, hs1, hs2]
    simp only [OperatorController.processPayout, hb, hm, helig, Bool.not_false, if_true]
    exact ⟨trivial, trivial, trivial⟩

/-- Witness for C10 at the fixture state: booking 4 is still `pending`, yet
the batch path creates a ledger row and dispatches through the ACH method,
while the single path rejects the same request without touching the state. -/
theorem processSinglePayout_skips_eligibility_witness :
    (OperatorController.processSinglePayout Fixtures.oracleOk Fixtures.dbC1
        ⟨4, 5, 2⟩ 0).1.payouts.length = Fixtures.dbC1.payouts.length + 1
    ∧ (OperatorController.processSinglePayout Fixtures.oracleOk Fixtures.dbC1
        ⟨4, 5, 2⟩ 0).2.2
      = (OperatorPaymentService.processPayout Fixtures.oracleOk Fixtures.pmAch
          Fixtures.bkPending.tour_price_usd).2
    ∧ ((OperatorController.processPayout Fixtures.oracleOk Fixtures.dbC1 4 5 2 0).db
          = Fixtures.dbC1
        ∧ (OperatorController.processPayout Fixtures.oracleOk Fixtures.dbC1 4 5 2 0).calls
          = []
        ∧ (OperatorController.processPayout Fixtures.oracleOk Fixtures.dbC1 4 5 2 0).response
          = .ineligible "Payout not eligible"
              (OperatorPaymentService.validatePayoutEligibility ⟨5, "approved"⟩
                Fixtures.bkPending).errors) :=
  have h := processSinglePayout_skips_eligibility Fixtures.oracleOk Fixtures.dbC1
    ⟨4, 5, 2⟩ 0 Fixtures.bkPending Fixtures.pmAch rfl rfl
  ⟨h.1, h.2.1, h.2.2 (by decide) (by decide)⟩

end TourPay
